import Mathlib

/-!
Verification of the MicroPython BMM150 magnetometer driver
(`micropython_bmm150/bmm150.py`).

The device is modelled as its register file: a map from register address to
byte content.  The driver's property getters and setters are embedded as pure
functions on that state; setters that validate their argument return
`Except String Regs`, mirroring the Python `raise ValueError` path (an error
is raised before any bus transaction, so the error branch carries no successor
state).  Getters that index a tuple or a dict return `Option`, `none`
standing for the Python `IndexError` / `KeyError` path.

The helper module `micropython_bmm150/i2c_helpers.py` (classes `CBits` and
`RegisterStruct`) is imported by the driver but is not part of the sources
at hand; its behaviour is modelled from the design document, see the
doc comments marked "Modelled from the spec".
-/

/-- The device register file: byte content at each register address. -/
def Regs : Type := Nat → Nat

/-- Read the byte stored at register address `a`. -/
def readReg (r : Regs) (a : Nat) : Nat := r a

/-- Write byte `v` at register address `a`, leaving all other registers as
they were. -/
def writeReg (r : Regs) (a v : Nat) : Regs := fun x => if x = a then v else r x

/-- A register file with every register zero. -/
def regsZero : Regs := fun _ => 0

/-- Register addresses, from `bmm150.py`. -/
def REG_WHOAMI : Nat := 0x40

def POWER_CONTROL : Nat := 0x4B

def OPERATION_MODE : Nat := 0x4C

def DATA : Nat := 0x42

def LOW_THRESHOLD : Nat := 0x4F

def HIGH_THRESHOLD : Nat := 0x50

/-- Bit-field descriptor, the constructor arguments of `CBits`:
`CBits(num_bits, register_address, start_bit)`. -/
structure CBitsDesc where
  num_bits : Nat
  register_address : Nat
  start_bit : Nat

/-- `_operation_mode = CBits(2, _OPERATION_MODE, 1)` from `bmm150.py`. -/
def operation_mode_field : CBitsDesc := ⟨2, OPERATION_MODE, 1⟩

/-- `_data_rate = CBits(2, _OPERATION_MODE, 0)` from `bmm150.py`. -/
def data_rate_field : CBitsDesc := ⟨2, OPERATION_MODE, 0⟩

/-- `_power_mode = CBits(1, _POWER_CONTROL, 0)` from `bmm150.py`. -/
def power_mode_field : CBitsDesc := ⟨1, POWER_CONTROL, 0⟩

/-- Modelled from the spec: the Register Field Accessor (`CBits`) read path,
absent from the sources at hand.  Per the design document the accessor reads
the containing byte, right-shifts by the bit offset and masks to the declared
width, returning the unsigned field value. -/
def cbitsReadByte (width start regByte : Nat) : Nat :=
  (regByte >>> start) &&& (2 ^ width - 1)

/-- Modelled from the spec: the Register Field Accessor (`CBits`) write path,
absent from the sources at hand.  Per the design document the accessor reads
the current register image, clears exactly the target bits via a precomputed
mask, ORs in the new value shifted into position, and writes the byte back. -/
def cbitsWriteByte (width start regByte value : Nat) : Nat :=
  (regByte &&& (255 ^^^ ((2 ^ width - 1) <<< start))) ||| (value <<< start)

/-- Read a `CBits` field from the register file. -/
def cbitsGet (d : CBitsDesc) (r : Regs) : Nat :=
  cbitsReadByte d.num_bits d.start_bit (readReg r d.register_address)

/-- Write a `CBits` field: read-modify-write of the containing byte. -/
def cbitsSet (d : CBitsDesc) (r : Regs) (v : Nat) : Regs :=
  writeReg r d.register_address
    (cbitsWriteByte d.num_bits d.start_bit (readReg r d.register_address) v)

example : cbitsReadByte 2 1 0b110 = 0b11 := by decide
example : cbitsWriteByte 2 1 0b11111111 0 = 0b11111001 := by decide
example : cbitsGet data_rate_field (cbitsSet data_rate_field regsZero 2) = 2 := by
  decide

/-- `NORMAL = const(0b00)` from `bmm150.py`. -/
def NORMAL : Nat := 0b00

/-- `FORCED = const(0b01)` from `bmm150.py`. -/
def FORCED : Nat := 0b01

/-- `SLEEP = const(0b11)` from `bmm150.py`. -/
def SLEEP : Nat := 0b11

/-- `operation_mode_values = (NORMAL, FORCED, SLEEP)` from `bmm150.py`. -/
def operation_mode_values : List Nat := [NORMAL, FORCED, SLEEP]

/-- `INT_DISABLED = const(0x1F)` from `bmm150.py`. -/
def INT_DISABLED : Nat := 0x1F

/-- `INT_ENABLED = const(0x00)` from `bmm150.py`. -/
def INT_ENABLED : Nat := 0x00

/-- `interrupt_mode_values = (INT_DISABLED, INT_ENABLED)` from `bmm150.py`. -/
def interrupt_mode_values : List Nat := [INT_DISABLED, INT_ENABLED]

/-- `RATE_10HZ = const(0b000)` and friends from `bmm150.py`. -/
def RATE_10HZ : Nat := 0b000

def RATE_2HZ : Nat := 0b001

def RATE_6HZ : Nat := 0b010

def RATE_8HZ : Nat := 0b011

def RATE_15HZ : Nat := 0b100

def RATE_20HZ : Nat := 0b101

def RATE_25HZ : Nat := 0b110

def RATE_30HZ : Nat := 0b111

/-- `data_rate_values` tuple from `bmm150.py`. -/
def data_rate_values : List Nat :=
  [RATE_10HZ, RATE_2HZ, RATE_6HZ, RATE_8HZ, RATE_15HZ, RATE_20HZ, RATE_25HZ,
   RATE_30HZ]

/-- Name table of the `operation_mode` getter:
`values = ("NORMAL", "FORCED", "SLEEP")`. -/
def operation_mode_names : List String := ["NORMAL", "FORCED", "SLEEP"]

/-- `operation_mode` getter: `values[self._operation_mode]`.  Indexing the
tuple out of range raises `IndexError` in Python, modelled by `none`. -/
def operation_mode_get (r : Regs) : Option String :=
  operation_mode_names.get? (cbitsGet operation_mode_field r)

/-- `operation_mode` setter: validates against `operation_mode_values` and
raises `ValueError` (before touching the bus) otherwise. -/
def operation_mode_set (r : Regs) (value : Nat) : Except String Regs :=
  if value ∈ operation_mode_values then
    Except.ok (cbitsSet operation_mode_field r value)
  else Except.error "Value must be a valid operation_mode setting"

/-- Name table of the `data_rate` getter. -/
def data_rate_names : List String :=
  ["RATE_10HZ", "RATE_2HZ", "RATE_6HZ", "RATE_8HZ", "RATE_15HZ", "RATE_20HZ",
   "RATE_25HZ", "RATE_30HZ"]

/-- `data_rate` getter: `values[self._data_rate]`. -/
def data_rate_get (r : Regs) : Option String :=
  data_rate_names.get? (cbitsGet data_rate_field r)

/-- `data_rate` setter: validates against `data_rate_values`, then writes the
`_data_rate` bit-field. -/
def data_rate_set (r : Regs) (value : Nat) : Except String Regs :=
  if value ∈ data_rate_values then
    Except.ok (cbitsSet data_rate_field r value)
  else Except.error "Value must be a valid data_rate setting"

/-- `_interrupt = RegisterStruct(0x4D, "B")`: the register address of the
full-byte interrupt-mode field. -/
def INTERRUPT_REG : Nat := 0x4D

/-- `_status_interrupt = RegisterStruct(0x4A, "B")`: the register address of
the interrupt-status byte. -/
def STATUS_INTERRUPT_REG : Nat := 0x4A

/-- `interrupt_mode` getter: exact-match lookup of the stored byte in the
two-entry dict mapping `INT_DISABLED` to `"INT_DISABLED"` and `INT_ENABLED`
to `"INT_ENABLED"`; a byte matching neither key raises `KeyError`, modelled
by `none`. -/
def interrupt_mode_get (r : Regs) : Option String :=
  if readReg r INTERRUPT_REG = INT_DISABLED then some "INT_DISABLED"
  else if readReg r INTERRUPT_REG = INT_ENABLED then some "INT_ENABLED"
  else none

/-- `interrupt_mode` setter: validates against `interrupt_mode_values`, then
writes the full byte. -/
def interrupt_mode_set (r : Regs) (value : Nat) : Except String Regs :=
  if value ∈ interrupt_mode_values then
    Except.ok (writeReg r INTERRUPT_REG value)
  else Except.error "Value must be a valid interrupt_mode setting"

/-- `high_threshold` getter: `self._high_threshold * 16`. -/
def high_threshold_get (r : Regs) : Nat := readReg r HIGH_THRESHOLD * 16

/-- `high_threshold` setter: `self._high_threshold = int(value / 16)`.
For a non-negative integer argument Python's `int(value / 16)` is division
rounded down, i.e. `Nat` division. -/
def high_threshold_set (r : Regs) (value : Nat) : Regs :=
  writeReg r HIGH_THRESHOLD (value / 16)

/-- `low_threshold` getter: `self._low_threshold * 16`. -/
def low_threshold_get (r : Regs) : Nat := readReg r LOW_THRESHOLD * 16

/-- `low_threshold` setter: `self._low_threshold = int(value / 16)`. -/
def low_threshold_set (r : Regs) (value : Nat) : Regs :=
  writeReg r LOW_THRESHOLD (value / 16)

/-- Modelled from the spec: decoding of one signed 16-bit little-endian field
of the little-endian `RegisterStruct` layout `hhhh`, absent from the sources at
hand.  `lo` is the byte at the lower address, `hi` the byte above it; the
16-bit image is interpreted in two's complement. -/
def s16 (lo hi : Nat) : Int :=
  let u : Nat := lo % 256 + 256 * (hi % 256)
  if u < 32768 then (u : Int) else (u : Int) - 65536

/-- Python's `>>` on `int` is the two's-complement arithmetic right shift:
division by `2 ^ n` rounded toward negative infinity. -/
def ashr (x : Int) (n : Nat) : Int := Int.fdiv x (2 ^ n)

/-- `measurements` getter: reads the eight data bytes at `_DATA` as four
signed 16-bit little-endian values and returns
`(raw_magx >> 3, raw_magy >> 3, raw_magz >> 1, raw_rhall >> 2)`. -/
def measurements (r : Regs) : Int × Int × Int × Int :=
  let raw_magx := s16 (readReg r DATA) (readReg r (DATA + 1))
  let raw_magy := s16 (readReg r (DATA + 2)) (readReg r (DATA + 3))
  let raw_magz := s16 (readReg r (DATA + 4)) (readReg r (DATA + 5))
  let raw_rhall := s16 (readReg r (DATA + 6)) (readReg r (DATA + 7))
  (ashr raw_magx 3, ashr raw_magy 3, ashr raw_magz 1, ashr raw_rhall 2)

/-- The 16-bit two's-complement image of an integer, as stored on the bus. -/
def u16ofInt (x : Int) : Nat := (x % 65536).toNat

/-- A register file whose data registers hold the little-endian
two's-complement encoding of the raw quadruple `(x, y, z, h)`. -/
def regsWithData (x y z h : Int) : Regs := fun a =>
  if a = DATA then u16ofInt x % 256
  else if a = DATA + 1 then u16ofInt x / 256
  else if a = DATA + 2 then u16ofInt y % 256
  else if a = DATA + 3 then u16ofInt y / 256
  else if a = DATA + 4 then u16ofInt z % 256
  else if a = DATA + 5 then u16ofInt z / 256
  else if a = DATA + 6 then u16ofInt h % 256
  else if a = DATA + 7 then u16ofInt h / 256
  else 0

/-- The `AlertStatus` namedtuple of `bmm150.py`. -/
structure AlertStatus where
  high_x : Nat
  high_y : Nat
  high_z : Nat
  low_x : Nat
  low_y : Nat
  low_z : Nat
deriving DecidableEq

/-- `status_interrupt` getter: mask-and-shift decode of the status byte at
register `0x4A`. -/
def status_interrupt (r : Regs) : AlertStatus :=
  let data := readReg r STATUS_INTERRUPT_REG
  let highz := (data &&& 0x20) >>> 5
  let highy := (data &&& 0x10) >>> 4
  let highx := (data &&& 0x08) >>> 3
  let lowz := (data &&& 0x04) >>> 2
  let lowy := (data &&& 0x02) >>> 1
  let lowx := data &&& 0x01
  { high_x := highx, high_y := highy, high_z := highz,
    low_x := lowx, low_y := lowy, low_z := lowz }

/-- One bus transaction, for recording the order of reads and writes. -/
inductive BusOp where
  | read (addr : Nat)
  | write (addr : Nat) (value : Nat)
deriving DecidableEq

/-- `BMM150.__init__`: writes the power-control bit true (a `CBits`
read-modify-write on register `0x4B`), reads the device-identity register,
raises `RuntimeError` unless it equals `0x32`, and finally sets the
operation-mode bit-field to `NORMAL` (a `CBits` read-modify-write on register
`0x4C`).  Returns the bus-transaction trace together with the outcome. -/
def init (r : Regs) : List BusOp × Except String Regs :=
  let pByte := cbitsWriteByte 1 0 (readReg r POWER_CONTROL) 1
  let r1 := writeReg r POWER_CONTROL pByte
  let trace1 : List BusOp :=
    [BusOp.read POWER_CONTROL, BusOp.write POWER_CONTROL pByte,
     BusOp.read REG_WHOAMI]
  if readReg r1 REG_WHOAMI ≠ 0x32 then
    (trace1, Except.error "Failed to find BMM150")
  else
    let oByte := cbitsWriteByte 2 1 (readReg r1 OPERATION_MODE) NORMAL
    (trace1 ++ [BusOp.read OPERATION_MODE, BusOp.write OPERATION_MODE oByte],
     Except.ok (writeReg r1 OPERATION_MODE oByte))

/-! ### Helper lemmas about the bit-field accessor -/

/-- A read-modify-write of a bit-field leaves every bit of the containing
byte outside the field's span unchanged, provided the written value fits the
declared width. -/
theorem cbitsWriteByte_testBit_outside (w s b v i : Nat) (hv : v < 2 ^ w)
    (hi : ¬(s ≤ i ∧ i < s + w)) (h8 : i < 8) :
    (cbitsWriteByte w s b v).testBit i = b.testBit i := by
  unfold cbitsWriteByte
  have h255 : Nat.testBit 255 i = true := by
    rw [show (255 : Nat) = 2 ^ 8 - 1 by norm_num, Nat.testBit_two_pow_sub_one]
    simpa using h8
  by_cases hsi : s ≤ i
  · have hw : w ≤ i - s := by omega
    have hvb : v.testBit (i - s) = false :=
      Nat.testBit_lt_two_pow
        (lt_of_lt_of_le hv (Nat.pow_le_pow_right (by norm_num) hw))
    have hmw : ¬(i - s < w) := by omega
    simp [Nat.testBit_or, Nat.testBit_and, Nat.testBit_xor,
      Nat.testBit_shiftLeft, Nat.testBit_two_pow_sub_one, hsi, hvb, hmw, h255]
  · simp [Nat.testBit_or, Nat.testBit_and, Nat.testBit_xor,
      Nat.testBit_shiftLeft, Nat.testBit_two_pow_sub_one, hsi, h255]

/-- Reading a bit-field back after a read-modify-write returns the written
value reduced modulo the field width (the low `w` bits of the value). -/
theorem cbitsReadByte_writeByte (w s b v : Nat) (hs : s + w ≤ 8) :
    cbitsReadByte w s (cbitsWriteByte w s b v) = v % 2 ^ w := by
  apply Nat.eq_of_testBit_eq
  intro i
  unfold cbitsReadByte cbitsWriteByte
  rw [show (255 : Nat) = 2 ^ 8 - 1 by norm_num]
  simp only [Nat.testBit_and, Nat.testBit_shiftRight, Nat.testBit_or,
    Nat.testBit_xor, Nat.testBit_shiftLeft, Nat.testBit_two_pow_sub_one,
    Nat.testBit_mod_two_pow]
  by_cases hiw : i < w
  · have he : s + i - s = i := by omega
    have h1 : s ≤ s + i := by omega
    have h2 : s + i < 8 := by omega
    simp [he, hiw, h1, h2]
  · simp [hiw]

/-- A value fitting the field width is read back exactly. -/
theorem cbits_readback (w s b v : Nat) (hv : v < 2 ^ w) (hs : s + w ≤ 8) :
    cbitsReadByte w s (cbitsWriteByte w s b v) = v := by
  rw [cbitsReadByte_writeByte w s b v hs, Nat.mod_eq_of_lt hv]

/-- Masking a byte with a single-bit mask and shifting the bit down yields
the bit value. -/
theorem and_mask_shift (b n : Nat) :
    (b &&& 2 ^ n) >>> n = (b.testBit n).toNat := by
  rw [Nat.and_two_pow, Nat.shiftRight_eq_div_pow,
    Nat.mul_div_cancel _ (Nat.two_pow_pos n)]

/-- Decoding the two's-complement byte pair of an in-range integer recovers
the integer. -/
theorem s16_u16 (x : Int) (h1 : -32768 ≤ x) (h2 : x ≤ 32767) :
    s16 (u16ofInt x % 256) (u16ofInt x / 256) = x := by
  simp only [s16, u16ofInt]
  have h3 : (0 : Int) ≤ x % 65536 := Int.emod_nonneg x (by norm_num)
  have h4 : x % 65536 < 65536 := Int.emod_lt_of_pos x (by norm_num)
  split <;> omega

/-- Reading back the register just written returns the written byte. -/
theorem readReg_writeReg_same (r : Regs) (a v : Nat) :
    readReg (writeReg r a v) a = v := if_pos rfl

/-- Reading any other register is unaffected by a write. -/
theorem readReg_writeReg_other (r : Regs) (a b v : Nat) (h : b ≠ a) :
    readReg (writeReg r a v) b = readReg r b := if_neg h

/-- Reading a bit-field back right after setting it yields the written value
reduced to the field width. -/
theorem cbitsGet_cbitsSet (d : CBitsDesc) (r : Regs) (v : Nat)
    (hs : d.start_bit + d.num_bits ≤ 8) :
    cbitsGet d (cbitsSet d r v) = v % 2 ^ d.num_bits := by
  unfold cbitsGet cbitsSet
  rw [readReg_writeReg_same]
  exact cbitsReadByte_writeByte _ _ _ _ hs

/-! ### The claims -/

/-- C1.  Threshold round-trip with floor quantization: over the representable
range (stored byte times 16, so 0 to 4080), writing a multiple of 16 to
either threshold reads back exactly; writing a non-multiple reads back the
value rounded down to the nearest multiple of 16 (100 stores 6 and reads 96);
every value read is the stored byte times 16, and the stored byte stays in
byte range. -/
theorem threshold_roundtrip (r : Regs) (n : Nat) (hn : n ≤ 4080) :
    high_threshold_get (high_threshold_set r n) = n - n % 16 ∧
    low_threshold_get (low_threshold_set r n) = n - n % 16 ∧
    (16 ∣ n → high_threshold_get (high_threshold_set r n) = n ∧
      low_threshold_get (low_threshold_set r n) = n) ∧
    readReg (high_threshold_set r n) HIGH_THRESHOLD = n / 16 ∧
    readReg (high_threshold_set r n) HIGH_THRESHOLD ≤ 255 ∧
    high_threshold_get r = readReg r HIGH_THRESHOLD * 16 ∧
    low_threshold_get r = readReg r LOW_THRESHOLD * 16 := by
  have e1 : high_threshold_get (high_threshold_set r n) = n / 16 * 16 := rfl
  have e2 : low_threshold_get (low_threshold_set r n) = n / 16 * 16 := rfl
  have e3 : readReg (high_threshold_set r n) HIGH_THRESHOLD = n / 16 := rfl
  exact ⟨by rw [e1]; omega, by rw [e2]; omega,
    fun h => ⟨by rw [e1]; omega, by rw [e2]; omega⟩,
    e3, by rw [e3]; omega, rfl, rfl⟩

/-- C1 witness: writing 100 stores byte 6 and reads back 96; writing the
multiple 96 reads back 96 exactly. -/
theorem threshold_roundtrip_witness :
    (high_threshold_get (high_threshold_set regsZero 100) = 100 - 100 % 16 ∧
      readReg (high_threshold_set regsZero 100) HIGH_THRESHOLD = 100 / 16) ∧
    high_threshold_get (high_threshold_set regsZero 96) = 96 :=
  ⟨⟨(threshold_roundtrip regsZero 100 (by norm_num)).1,
    (threshold_roundtrip regsZero 100 (by norm_num)).2.2.2.1⟩,
   ((threshold_roundtrip regsZero 96 (by norm_num)).2.2.1 ⟨6, rfl⟩).1⟩

/-- C2.  Operation-mode round-trip.  Setting `NORMAL` or `FORCED` reads back
the matching name, but setting the third legal value `SLEEP = 0b11` stores
field value 3, and indexing the 3-entry name table at 3 is out of range
(Python `IndexError`, modelled by `none`): the getter can never return
`"SLEEP"`, so the claimed round-trip fails at `SLEEP`. -/
theorem operation_mode_sleep_unreadable (r : Regs) :
    (operation_mode_set r NORMAL).map operation_mode_get =
      Except.ok (some "NORMAL") ∧
    (operation_mode_set r FORCED).map operation_mode_get =
      Except.ok (some "FORCED") ∧
    (operation_mode_set r SLEEP).map operation_mode_get = Except.ok none := by
  have h : ∀ v, operation_mode_get (cbitsSet operation_mode_field r v) =
      operation_mode_names.get? (v % 4) := by
    intro v
    unfold operation_mode_get
    rw [cbitsGet_cbitsSet _ _ _ (by decide)]
    rfl
  have hset : ∀ v, v ∈ operation_mode_values →
      operation_mode_set r v = Except.ok (cbitsSet operation_mode_field r v) := by
    intro v hv
    unfold operation_mode_set
    rw [if_pos hv]
  rw [hset NORMAL (by decide), hset FORCED (by decide), hset SLEEP (by decide)]
  refine ⟨?_, ?_, ?_⟩ <;>
    simp [Except.map, h, NORMAL, FORCED, SLEEP, operation_mode_names]

/-- C3.  Data-rate round-trip.  The `_data_rate` field is declared 2 bits
wide, so only the four rates `0b000`–`0b011` round-trip; each of the four
rates `0b100`–`0b111` reads back as the name of its value modulo 4 (the
low two bits), not its own name. -/
theorem data_rate_roundtrip_two_bits (r : Regs) :
    (data_rate_set r RATE_10HZ).map data_rate_get =
      Except.ok (some "RATE_10HZ") ∧
    (data_rate_set r RATE_2HZ).map data_rate_get =
      Except.ok (some "RATE_2HZ") ∧
    (data_rate_set r RATE_6HZ).map data_rate_get =
      Except.ok (some "RATE_6HZ") ∧
    (data_rate_set r RATE_8HZ).map data_rate_get =
      Except.ok (some "RATE_8HZ") ∧
    (data_rate_set r RATE_15HZ).map data_rate_get =
      Except.ok (some "RATE_10HZ") ∧
    (data_rate_set r RATE_20HZ).map data_rate_get =
      Except.ok (some "RATE_2HZ") ∧
    (data_rate_set r RATE_25HZ).map data_rate_get =
      Except.ok (some "RATE_6HZ") ∧
    (data_rate_set r RATE_30HZ).map data_rate_get =
      Except.ok (some "RATE_8HZ") := by
  have h : ∀ v, data_rate_get (cbitsSet data_rate_field r v) =
      data_rate_names.get? (v % 4) := by
    intro v
    unfold data_rate_get
    rw [cbitsGet_cbitsSet _ _ _ (by decide)]
    rfl
  have hset : ∀ v, v ∈ data_rate_values →
      data_rate_set r v = Except.ok (cbitsSet data_rate_field r v) := by
    intro v hv
    unfold data_rate_set
    rw [if_pos hv]
  rw [hset RATE_10HZ (by decide), hset RATE_2HZ (by decide),
    hset RATE_6HZ (by decide), hset RATE_8HZ (by decide),
    hset RATE_15HZ (by decide), hset RATE_20HZ (by decide),
    hset RATE_25HZ (by decide), hset RATE_30HZ (by decide)]
  refine ⟨?_, ?_, ?_, ?_, ?_, ?_, ?_, ?_⟩ <;>
    simp [Except.map, h, RATE_10HZ, RATE_2HZ, RATE_6HZ, RATE_8HZ, RATE_15HZ,
      RATE_20HZ, RATE_25HZ, RATE_30HZ, data_rate_names]

/-- C4.  The `_data_rate` and `_operation_mode` bit-fields overlap: both live
in register `0x4C` and both spans contain bit 1; writing a legal data rate
changes what `operation_mode` reads even though the operation mode was never
set. -/
theorem data_rate_operation_mode_overlap :
    data_rate_field.register_address = operation_mode_field.register_address ∧
    data_rate_field.start_bit ≤ 1 ∧
    1 < data_rate_field.start_bit + data_rate_field.num_bits ∧
    operation_mode_field.start_bit ≤ 1 ∧
    1 < operation_mode_field.start_bit + operation_mode_field.num_bits ∧
    ∃ r' : Regs, data_rate_set regsZero RATE_6HZ = Except.ok r' ∧
      operation_mode_get r' ≠ operation_mode_get regsZero := by
  refine ⟨rfl, by decide, by decide, by decide, by decide,
    cbitsSet data_rate_field regsZero RATE_6HZ, rfl, ?_⟩
  decide

/-- C5.  Measurement decode: for every raw quadruple of signed 16-bit
little-endian values in the data registers, `measurements` returns the
quadruple arithmetically right-shifted by 3, 3, 1 and 2 bits respectively,
where the shift is the two's-complement arithmetic shift (floor division by
the power of two), so negative raw values are handled correctly. -/
theorem measurements_decode (x y z h : Int)
    (hx1 : -32768 ≤ x) (hx2 : x ≤ 32767)
    (hy1 : -32768 ≤ y) (hy2 : y ≤ 32767)
    (hz1 : -32768 ≤ z) (hz2 : z ≤ 32767)
    (hh1 : -32768 ≤ h) (hh2 : h ≤ 32767) :
    measurements (regsWithData x y z h) =
      (ashr x 3, ashr y 3, ashr z 1, ashr h 2) := by
  have e1 : readReg (regsWithData x y z h) DATA = u16ofInt x % 256 := rfl
  have e2 : readReg (regsWithData x y z h) (DATA + 1) = u16ofInt x / 256 := rfl
  have e3 : readReg (regsWithData x y z h) (DATA + 2) = u16ofInt y % 256 := rfl
  have e4 : readReg (regsWithData x y z h) (DATA + 3) = u16ofInt y / 256 := rfl
  have e5 : readReg (regsWithData x y z h) (DATA + 4) = u16ofInt z % 256 := rfl
  have e6 : readReg (regsWithData x y z h) (DATA + 5) = u16ofInt z / 256 := rfl
  have e7 : readReg (regsWithData x y z h) (DATA + 6) = u16ofInt h % 256 := rfl
  have e8 : readReg (regsWithData x y z h) (DATA + 7) = u16ofInt h / 256 := rfl
  simp only [measurements]
  rw [e1, e2, e3, e4, e5, e6, e7, e8, s16_u16 x hx1 hx2, s16_u16 y hy1 hy2,
    s16_u16 z hz1 hz2, s16_u16 h hh1 hh2]

/-- C5 witness: the raw quadruple `(-1, 100, -3, 7)` decodes to
`(-1, 12, -2, 1)` — in particular the shift of `-1` yields `-1`, an
arithmetic and not a logical shift. -/
theorem measurements_decode_witness :
    measurements (regsWithData (-1) 100 (-3) 7) = (-1, 12, -2, 1) := by
  have hw := measurements_decode (-1) 100 (-3) 7 (by norm_num) (by norm_num)
    (by norm_num) (by norm_num) (by norm_num) (by norm_num) (by norm_num)
    (by norm_num)
  rw [hw]
  decide

/-- C6.  Interrupt-status decode: the six flags are exactly bits 5, 4, 3, 2,
1, 0 of the status byte (each flag 0 or 1), and the byte `0b00101001`
decodes to `high_z = 1`, `high_y = 0`, `high_x = 1`, `low_z = 0`, `low_y = 0`,
`low_x = 1`. -/
theorem status_interrupt_decode (r : Regs) :
    (status_interrupt r).high_z =
      ((readReg r STATUS_INTERRUPT_REG).testBit 5).toNat ∧
    (status_interrupt r).high_y =
      ((readReg r STATUS_INTERRUPT_REG).testBit 4).toNat ∧
    (status_interrupt r).high_x =
      ((readReg r STATUS_INTERRUPT_REG).testBit 3).toNat ∧
    (status_interrupt r).low_z =
      ((readReg r STATUS_INTERRUPT_REG).testBit 2).toNat ∧
    (status_interrupt r).low_y =
      ((readReg r STATUS_INTERRUPT_REG).testBit 1).toNat ∧
    (status_interrupt r).low_x =
      ((readReg r STATUS_INTERRUPT_REG).testBit 0).toNat ∧
    status_interrupt (writeReg regsZero STATUS_INTERRUPT_REG 0b00101001) =
      { high_x := 1, high_y := 0, high_z := 1,
        low_x := 1, low_y := 0, low_z := 0 } := by
  refine ⟨?_, ?_, ?_, ?_, ?_, ?_, by decide⟩
  · show (readReg r STATUS_INTERRUPT_REG &&& 0x20) >>> 5 = _
    rw [show (0x20 : Nat) = 2 ^ 5 by norm_num]
    exact and_mask_shift _ 5
  · show (readReg r STATUS_INTERRUPT_REG &&& 0x10) >>> 4 = _
    rw [show (0x10 : Nat) = 2 ^ 4 by norm_num]
    exact and_mask_shift _ 4
  · show (readReg r STATUS_INTERRUPT_REG &&& 0x08) >>> 3 = _
    rw [show (0x08 : Nat) = 2 ^ 3 by norm_num]
    exact and_mask_shift _ 3
  · show (readReg r STATUS_INTERRUPT_REG &&& 0x04) >>> 2 = _
    rw [show (0x04 : Nat) = 2 ^ 2 by norm_num]
    exact and_mask_shift _ 2
  · show (readReg r STATUS_INTERRUPT_REG &&& 0x02) >>> 1 = _
    rw [show (0x02 : Nat) = 2 ^ 1 by norm_num]
    exact and_mask_shift _ 1
  · show readReg r STATUS_INTERRUPT_REG &&& 0x01 = _
    have hm := and_mask_shift (readReg r STATUS_INTERRUPT_REG) 0
    rwa [Nat.shiftRight_zero, pow_zero] at hm

/-- C7.  Validate-then-act: any value outside the enumerated legal set makes
the `operation_mode`, `data_rate` and `interrupt_mode` setters raise the
invalid-configuration error, with no successor register state (no bus write
is attempted). -/
theorem setters_validate (r : Regs) (v : Nat) :
    (v ∉ operation_mode_values →
      operation_mode_set r v =
        Except.error "Value must be a valid operation_mode setting") ∧
    (v ∉ data_rate_values →
      data_rate_set r v =
        Except.error "Value must be a valid data_rate setting") ∧
    (v ∉ interrupt_mode_values →
      interrupt_mode_set r v =
        Except.error "Value must be a valid interrupt_mode setting") := by
  refine ⟨fun hv => ?_, fun hv => ?_, fun hv => ?_⟩
  · unfold operation_mode_set
    rw [if_neg hv]
  · unfold data_rate_set
    rw [if_neg hv]
  · unfold interrupt_mode_set
    rw [if_neg hv]

/-- C7 witness: the value 9 is legal for no setter and each of the three
setters rejects it. -/
theorem setters_validate_witness :
    operation_mode_set regsZero 9 =
      Except.error "Value must be a valid operation_mode setting" ∧
    data_rate_set regsZero 9 =
      Except.error "Value must be a valid data_rate setting" ∧
    interrupt_mode_set regsZero 9 =
      Except.error "Value must be a valid interrupt_mode setting" :=
  ⟨(setters_validate regsZero 9).1 (by decide),
   (setters_validate regsZero 9).2.1 (by decide),
   (setters_validate regsZero 9).2.2 (by decide)⟩

/-- C8.  Initialization protocol: construction writes the power-control bit
true (a read-modify-write of register `0x4B`), then reads the identity
register; on the known-good byte `0x32` it sets the operation mode to
`NORMAL` and succeeds, the bus trace being exactly power-write, identity
read, operation-mode write in that order; on any other identity byte it
fails with the runtime error and the trace stops right after the identity
read — no operation-mode transaction is issued. -/
theorem init_protocol (r : Regs) :
    (readReg r REG_WHOAMI = 0x32 →
      ∃ r' : Regs, (init r).2 = Except.ok r' ∧
        (init r).1 =
          [BusOp.read POWER_CONTROL,
           BusOp.write POWER_CONTROL (readReg r' POWER_CONTROL),
           BusOp.read REG_WHOAMI,
           BusOp.read OPERATION_MODE,
           BusOp.write OPERATION_MODE (readReg r' OPERATION_MODE)] ∧
        cbitsGet power_mode_field r' = 1 ∧
        operation_mode_get r' = some "NORMAL") ∧
    (readReg r REG_WHOAMI ≠ 0x32 →
      (init r).2 = Except.error "Failed to find BMM150" ∧
      (init r).1 =
        [BusOp.read POWER_CONTROL,
         BusOp.write POWER_CONTROL
           (cbitsWriteByte 1 0 (readReg r POWER_CONTROL) 1),
         BusOp.read REG_WHOAMI]) := by
  have hwho : readReg (writeReg r POWER_CONTROL
      (cbitsWriteByte 1 0 (readReg r POWER_CONTROL) 1)) REG_WHOAMI =
      readReg r REG_WHOAMI :=
    readReg_writeReg_other _ _ _ _ (by decide)
  constructor
  · intro h
    refine ⟨writeReg (writeReg r POWER_CONTROL
        (cbitsWriteByte 1 0 (readReg r POWER_CONTROL) 1)) OPERATION_MODE
        (cbitsWriteByte 2 1 (readReg (writeReg r POWER_CONTROL
          (cbitsWriteByte 1 0 (readReg r POWER_CONTROL) 1)) OPERATION_MODE)
          NORMAL), ?_, ?_, ?_, ?_⟩
    · simp only [init, hwho, h]
      rw [if_neg (by decide)]
    · simp only [init, hwho, h]
      rw [if_neg (by decide)]
      rw [readReg_writeReg_other _ _ _ _
        (show POWER_CONTROL ≠ OPERATION_MODE by decide),
        readReg_writeReg_same, readReg_writeReg_same]
      rfl
    · unfold cbitsGet
      rw [show power_mode_field.register_address = POWER_CONTROL from rfl,
        readReg_writeReg_other _ _ _ _
          (show POWER_CONTROL ≠ OPERATION_MODE by decide),
        readReg_writeReg_same]
      exact cbitsReadByte_writeByte 1 0 _ 1 (by decide)
    · unfold operation_mode_get cbitsGet
      rw [show operation_mode_field.register_address = OPERATION_MODE from rfl,
        readReg_writeReg_same]
      rw [show operation_mode_field.num_bits = 2 from rfl,
        show operation_mode_field.start_bit = 1 from rfl,
        cbitsReadByte_writeByte 2 1 _ NORMAL (by decide)]
      rfl
  · intro h
    constructor
    · simp only [init, hwho]
      rw [if_pos h]
    · simp only [init, hwho]
      rw [if_pos h]

/-- C8 witness: with identity byte `0x32` present construction succeeds with
the full five-transaction trace, power bit set and mode `NORMAL`; with the
all-zero register file (identity byte 0) it fails with the runtime error
after exactly the power write and the identity read. -/
theorem init_protocol_witness :
    (∃ r' : Regs,
      (init (writeReg regsZero REG_WHOAMI 0x32)).2 = Except.ok r' ∧
      (init (writeReg regsZero REG_WHOAMI 0x32)).1 =
        [BusOp.read POWER_CONTROL,
         BusOp.write POWER_CONTROL (readReg r' POWER_CONTROL),
         BusOp.read REG_WHOAMI,
         BusOp.read OPERATION_MODE,
         BusOp.write OPERATION_MODE (readReg r' OPERATION_MODE)] ∧
      cbitsGet power_mode_field r' = 1 ∧
      operation_mode_get r' = some "NORMAL") ∧
    ((init regsZero).2 = Except.error "Failed to find BMM150" ∧
      (init regsZero).1 =
        [BusOp.read POWER_CONTROL,
         BusOp.write POWER_CONTROL
           (cbitsWriteByte 1 0 (readReg regsZero POWER_CONTROL) 1),
         BusOp.read REG_WHOAMI]) :=
  ⟨(init_protocol (writeReg regsZero REG_WHOAMI 0x32)).1 rfl,
   (init_protocol regsZero).2 (by decide)⟩

/-- C9.  Interrupt-mode encoding: the enabled constant is `0x00` and the
disabled constant is `0x1F`, and setting either value then reading returns
the matching name through the exact-match two-entry lookup. -/
theorem interrupt_mode_roundtrip :
    INT_ENABLED = 0x00 ∧ INT_DISABLED = 0x1F ∧
    ∀ r : Regs,
      (interrupt_mode_set r INT_ENABLED).map interrupt_mode_get =
        Except.ok (some "INT_ENABLED") ∧
      (interrupt_mode_set r INT_DISABLED).map interrupt_mode_get =
        Except.ok (some "INT_DISABLED") := by
  refine ⟨rfl, rfl, fun r => ⟨?_, ?_⟩⟩ <;>
    simp [interrupt_mode_set, interrupt_mode_values, interrupt_mode_get,
      Except.map, INT_ENABLED, INT_DISABLED, readReg_writeReg_same]

/-- C10.  Bit-field isolation: for every initial register content and every
value fitting the declared field width, the read-modify-write performed by
the bit-field accessor leaves every bit of the containing byte outside the
field's span unchanged, and every other register untouched. -/
theorem cbits_isolation (d : CBitsDesc) (r : Regs) (v i : Nat)
    (hv : v < 2 ^ d.num_bits) (h8 : i < 8)
    (hout : ¬(d.start_bit ≤ i ∧ i < d.start_bit + d.num_bits)) :
    (readReg (cbitsSet d r v) d.register_address).testBit i =
      (readReg r d.register_address).testBit i ∧
    ∀ a, a ≠ d.register_address → readReg (cbitsSet d r v) a = readReg r a := by
  constructor
  · unfold cbitsSet
    rw [readReg_writeReg_same]
    exact cbitsWriteByte_testBit_outside _ _ _ _ _ hv hout h8
  · intro a ha
    unfold cbitsSet
    exact readReg_writeReg_other _ _ _ _ ha

/-- C10 witness: with the adjacent bit 2 of register `0x4C` set beforehand,
writing the 2-bit data-rate field (bits 0-1) leaves bit 2 as it was. -/
theorem cbits_isolation_witness :
    (readReg (cbitsSet data_rate_field (writeReg regsZero OPERATION_MODE 4) 1)
        data_rate_field.register_address).testBit 2 =
      (readReg (writeReg regsZero OPERATION_MODE 4)
        data_rate_field.register_address).testBit 2 :=
  (cbits_isolation data_rate_field (writeReg regsZero OPERATION_MODE 4) 1 2
    (by decide) (by decide) (by decide)).1
